import Mathlib

/-!
Shallow embedding of the chat-app backend (Flask + MongoDB) core logic:
friend graph (app/models/friendship.py, app/routes/friends.py),
room directory (app/models/room.py, app/routes/chat.py),
message log (app/models/message.py) and the presence/connection registry
(app/socketio_events.py).  User ids, room ids and message ids are the
string form of Mongo ObjectIds, so id comparison in the source
(`str(u1) < str(u2)`) is lexicographic string comparison here as well.
Databases are insertion-ordered lists of rows; `find_one` is `List.find?`,
`insert_one` appends, `update_one` rewrites the first matching row and
`update_many` rewrites every matching row.
-/

namespace ChatApp

/-- `app/utils/auth.py validate_object_id`: `ObjectId(s)` succeeds on a
string exactly when it is a 24-character hex string. -/
def isHexChar (c : Char) : Bool :=
  c.isDigit || (('a' ≤ c) && (c ≤ 'f')) || (('A' ≤ c) && (c ≤ 'F'))

/-- `app/utils/auth.py validate_object_id`. -/
def validate_object_id (s : String) : Bool :=
  s.length == 24 && s.data.all isHexChar

/-! ## Friend graph (app/models/friendship.py) -/

/-- A stored `friendships` row (`Friendship.to_dict`, minus `_id` and
timestamp, which no queried predicate reads). -/
structure FriendshipRow where
  user1_id : String
  user2_id : String
deriving Repr, DecidableEq

/-- Python string `<`: lexicographic comparison of code points, shorter
common-prefix string first. -/
def charListLt : List Char → List Char → Bool
  | [], [] => false
  | [], _ :: _ => true
  | _ :: _, [] => false
  | a :: as, b :: bs =>
    if a.toNat < b.toNat then true
    else if b.toNat < a.toNat then false
    else charListLt as bs

/-- `str(u1) < str(u2)` on the string forms of the two ids. -/
def strLt (a b : String) : Bool := charListLt a.data b.data

/-- `Friendship.__init__`: stores the two user ids in a consistent order,
smaller string first. -/
def mkFriendship (user1_id user2_id : String) : FriendshipRow :=
  if strLt user1_id user2_id then ⟨user1_id, user2_id⟩ else ⟨user2_id, user1_id⟩

/-- `FriendshipRepository.find_friendship`: re-derives the consistent
ordering (the comparison is duplicated in the source, not shared with
`Friendship.__init__`) and looks up the exact ordered pair. -/
def find_friendship (user1_id user2_id : String) (db : List FriendshipRow) :
    Option FriendshipRow :=
  let u := if strLt user1_id user2_id then (user1_id, user2_id)
    else (user2_id, user1_id)
  db.find? (fun f => f.user1_id == u.1 && f.user2_id == u.2)

/-- `FriendshipRepository.are_friends`. -/
def are_friends (user1_id user2_id : String) (db : List FriendshipRow) : Bool :=
  (find_friendship user1_id user2_id db).isSome

/-- A stored `friend_requests` row.  Request ids are model-level `Nat`s
standing for the generated ObjectIds. -/
structure FriendReq where
  id : Nat
  from_user_id : String
  to_user_id : String
  status : String
deriving Repr, DecidableEq

/-- `FriendRequestRepository.find_existing_request`: pending request
between the two users, in either direction. -/
def find_existing_request (fromUser toUser : String) (db : List FriendReq) :
    Option FriendReq :=
  db.find? (fun r =>
    (r.from_user_id == fromUser && r.to_user_id == toUser && r.status == "pending") ||
    (r.from_user_id == toUser && r.to_user_id == fromUser && r.status == "pending"))

/-- `FriendRequestRepository.update_status` (an `update_one` on `_id`):
rewrites the status of the first row with the given id. -/
def update_request_status (request_id : Nat) (status : String) :
    List FriendReq → List FriendReq
  | [] => []
  | r :: rest =>
    if r.id == request_id then { r with status := status } :: rest
    else r :: update_request_status request_id status rest

/-- State touched by the friends routes: the registered users (ids), the
`friend_requests` and `friendships` collections, and the id counter for
the next inserted request. -/
structure FriendState where
  users : List String
  requests : List FriendReq
  friendships : List FriendshipRow
  nextRequestId : Nat
deriving Repr, DecidableEq

/-- Outcome of `POST /api/friends/requests` (app/routes/friends.py
`send_friend_request`). -/
inductive SendRequestResult where
  | invalidUserId                      -- 400 "Valid user_id is required"
  | selfRequest                        -- 400 "Cannot send friend request to yourself"
  | userNotFound                       -- 404 "User not found"
  | alreadyFriends                     -- 409 "You are already friends with this user"
  | requestAlreadySent                 -- 409 "Friend request already sent"
  | requestAlreadyReceived             -- 409 "This user has already sent you a friend request"
  | requestCreated (request_id : Nat)  -- 201
deriving Repr, DecidableEq

/-- `app/routes/friends.py send_friend_request`, check for check in source
order: id validity, self-request, target existence, existing friendship,
pending request in either direction; otherwise insert the new pending
request. -/
def send_friend_request (current_user_id to_user_id : String) (st : FriendState) :
    SendRequestResult × FriendState :=
  if !validate_object_id to_user_id then (.invalidUserId, st)
  else if current_user_id == to_user_id then (.selfRequest, st)
  else if !(st.users.contains to_user_id) then (.userNotFound, st)
  else if are_friends current_user_id to_user_id st.friendships then (.alreadyFriends, st)
  else
    match find_existing_request current_user_id to_user_id st.requests with
    | some r =>
      if r.from_user_id == current_user_id then (.requestAlreadySent, st)
      else (.requestAlreadyReceived, st)
    | none =>
      let req : FriendReq := ⟨st.nextRequestId, current_user_id, to_user_id, "pending"⟩
      (.requestCreated req.id,
        { st with requests := st.requests ++ [req],
                  nextRequestId := st.nextRequestId + 1 })

/-- Outcome of `POST /api/friends/requests/<id>/accept`. -/
inductive AcceptResult where
  | requestNotFound   -- 404
  | accessDenied      -- 403 (actor is not the recipient)
  | notPending        -- 400 "Friend request is no longer pending"
  | accepted          -- 200
deriving Repr, DecidableEq

/-- `app/routes/friends.py accept_friend_request`: looks the request up by
id, requires the actor to be the recipient and the status to be pending,
then inserts the canonicalised Friendship and marks the request
accepted. -/
def accept_friend_request (request_id : Nat) (current_user_id : String) (st : FriendState) :
    AcceptResult × FriendState :=
  match st.requests.find? (fun r => r.id == request_id) with
  | none => (.requestNotFound, st)
  | some r =>
    if r.to_user_id != current_user_id then (.accessDenied, st)
    else if r.status != "pending" then (.notPending, st)
    else
      (.accepted,
        { st with
          friendships := st.friendships ++ [mkFriendship r.from_user_id r.to_user_id],
          requests := update_request_status request_id "accepted" st.requests })

/-! ## Message log (app/models/message.py) -/

/-- A stored `messages` row.  `created_at` is a timestamp (totally ordered,
modelled as `Nat`). -/
structure Msg where
  id : String
  sender_id : String
  room_id : String
  content : String
  message_type : String
  created_at : Nat
  read_by : List String
deriving Repr, DecidableEq

/-- One insertion step of sorting by `created_at` descending
(`.sort("created_at", -1)`). -/
def insertByCreatedDesc (m : Msg) : List Msg → List Msg
  | [] => [m]
  | x :: xs =>
    if x.created_at ≥ m.created_at then x :: insertByCreatedDesc m xs
    else m :: x :: xs

/-- Sort by `created_at` descending (newest first). -/
def sortByCreatedDesc : List Msg → List Msg
  | [] => []
  | x :: xs => insertByCreatedDesc x (sortByCreatedDesc xs)

/-- `MessageRepository.find_by_room`: sort the room's messages newest
first, skip `skip`, apply `.limit(limit)`, then return in chronological
order (the final `reversed(...)`).  Pymongo's `cursor.limit(0)` means no
limit, so at `limit = 0` the whole remaining window is returned. -/
def find_by_room (room_id : String) (limit skip : Nat) (db : List Msg) : List Msg :=
  let window := (sortByCreatedDesc (db.filter (fun m => m.room_id == room_id))).drop skip
  (if limit == 0 then window else window.take limit).reverse

/-- Generic `update_one`: rewrite the first row matching `p`. -/
def update_first {α : Type} (p : α → Bool) (f : α → α) : List α → List α
  | [] => []
  | x :: xs => if p x then f x :: xs else x :: update_first p f xs

/-- Mongo `$addToSet` on `read_by`: append the user only if absent. -/
def addToSet (user_id : String) (m : Msg) : Msg :=
  if m.read_by.contains user_id then m
  else { m with read_by := m.read_by ++ [user_id] }

/-- `MessageRepository.mark_as_read`: `update_one` on `_id` with
`$addToSet read_by`. -/
def mark_as_read (message_id user_id : String) (db : List Msg) : List Msg :=
  update_first (fun m => m.id == message_id) (addToSet user_id) db

/-- One row of `MessageRepository.mark_room_messages_as_read`'s
`update_many`: rows matching `{room_id, read_by: {$ne: user_id}}` get
`$addToSet read_by user_id`; other rows are untouched. -/
def mark_step (room_id user_id : String) (m : Msg) : Msg :=
  if m.room_id == room_id && !(m.read_by.contains user_id) then addToSet user_id m
  else m

/-- `MessageRepository.mark_room_messages_as_read`. -/
def mark_room_messages_as_read (room_id user_id : String) (db : List Msg) : List Msg :=
  db.map (mark_step room_id user_id)

/-- `MessageRepository.get_unread_count`: `count_documents` with
`room_id` equal, `read_by` not containing the user (`$ne` on an array
field) and `sender_id` different from the user. -/
def get_unread_count (room_id user_id : String) (db : List Msg) : Nat :=
  (db.filter (fun m =>
    m.room_id == room_id && !(m.read_by.contains user_id) &&
      !(m.sender_id == user_id))).length

/-- Follows the spec's words for `unreadCount` (claim C5): the number of
messages in the room that are not authored by the user and whose
`read_by` set excludes the user.  To be compared with
`get_unread_count`, which is translated from the source. -/
def unreadCount_spec (room_id user_id : String) (db : List Msg) : Nat :=
  (db.filter (fun m =>
    m.room_id == room_id && !(m.sender_id == user_id) &&
      !(m.read_by.contains user_id))).length

/-- Concrete message used by the 120-message pagination scenario. -/
def pageMsg (i : Nat) : Msg :=
  ⟨toString i, "sender", "room1", "m", "text", i, []⟩

/-- A room holding 120 messages with increasing timestamps. -/
def pageDb : List Msg := (List.range 120).map pageMsg

/-! ## Room directory (app/models/room.py, app/routes/chat.py) -/

/-- A stored `rooms` row (`Room.to_dict`, minus timestamp and the
last-message preview, which no claim reads). -/
structure Room where
  id : String
  name : Option String
  room_type : String
  members : List String
  created_by : String
deriving Repr, DecidableEq

/-- `RoomRepository.is_member`: some room with this id has the user in
its member array. -/
def is_member (room_id user_id : String) (rooms : List Room) : Bool :=
  (rooms.find? (fun r => r.id == room_id && r.members.contains user_id)).isSome

/-- `RoomRepository.find_private_room`: first room with
`room_type = "private"`, members containing both users (`$all`) and
member array of size 2 (`$size`). -/
def find_private_room (user1_id user2_id : String) (rooms : List Room) : Option Room :=
  rooms.find? (fun r => r.room_type == "private" &&
    (r.members.contains user1_id && r.members.contains user2_id) &&
    r.members.length == 2)

/-- `RoomRepository.add_member` (`$addToSet` on the first room with the
id). -/
def add_member_row (room_id user_id : String) : List Room → List Room :=
  update_first (fun r => r.id == room_id)
    (fun r => if r.members.contains user_id then r
      else { r with members := r.members ++ [user_id] })

/-- `RoomRepository.remove_member` (`$pull`: delete every occurrence of
the user from the member array of the first room with the id). -/
def remove_member_row (room_id user_id : String) : List Room → List Room :=
  update_first (fun r => r.id == room_id)
    (fun r => { r with members := r.members.filter (fun m => !(m == user_id)) })

/-- State touched by the chat routes and message socket events. -/
structure ChatState where
  rooms : List Room
  messages : List Msg
  friendships : List FriendshipRow
  nextRoomId : Nat
deriving Repr, DecidableEq

/-- Hex digit for generated ObjectIds. -/
def hexDigit (n : Nat) : Char :=
  if n < 10 then Char.ofNat (48 + n) else Char.ofNat (87 + n)

/-- Generated room ObjectIds: the counter rendered as 24 hex chars. -/
def natToHex24 (n : Nat) : String :=
  ⟨(List.range 24).map (fun i => hexDigit (n / 16 ^ (23 - i) % 16))⟩

/-- Outcome of `POST /api/chat/rooms` (app/routes/chat.py `create_room`). -/
inductive CreateRoomResult where
  | noMembers                        -- 400 "At least one member is required"
  | notFriends (member_id : String)  -- 403 "You can only create rooms with your friends..."
  | existingRoom (room_id : String)  -- 200 "Room already exists"
  | created (room_id : String)       -- 201 "Room created successfully"
deriving Repr, DecidableEq

/-- The member-validation loop of `create_room`: ids failing
`validate_object_id` are silently skipped; the first valid id whose user
is not a friend of the creator aborts the request (403 naming it);
otherwise the valid ids are kept in order. -/
def collect_members (creator : String) (friendships : List FriendshipRow) :
    List String → Except String (List String)
  | [] => .ok []
  | mid :: rest =>
    if validate_object_id mid then
      if are_friends creator mid friendships then
        match collect_members creator friendships rest with
        | .ok tail => .ok (mid :: tail)
        | .error e => .error e
      else .error mid
    else collect_members creator friendships rest

/-- `app/routes/chat.py create_room`: requires a nonempty member list,
runs the validation loop, and for `room_type = "private"` with exactly
two resulting members first checks `find_private_room`, returning the
existing room as a success; otherwise inserts a new room whose id is the
generated ObjectId. -/
def create_room (user_id room_type : String) (member_ids : List String)
    (name : Option String) (st : ChatState) : CreateRoomResult × ChatState :=
  if member_ids.isEmpty then (.noMembers, st)
  else
    match collect_members user_id st.friendships member_ids with
    | .error mid => (.notFriends mid, st)
    | .ok valids =>
      let mkNew : CreateRoomResult × ChatState :=
        (.created (natToHex24 st.nextRoomId),
         { st with
             rooms := st.rooms ++
               [⟨natToHex24 st.nextRoomId, name, room_type, user_id :: valids, user_id⟩],
             nextRoomId := st.nextRoomId + 1 })
      match valids with
      | [v] =>
        if room_type == "private" then
          match find_private_room user_id v st.rooms with
          | some room => (.existingRoom room.id, st)
          | none => mkNew
        else mkNew
      | _ => mkNew

/-- Outcome of `POST /api/chat/rooms/<id>/members`. -/
inductive AddMemberResult where
  | invalidRoomId   -- 400 "Invalid room ID"
  | roomNotFound    -- 404
  | notGroupRoom    -- 400 "Cannot add members to private chats"
  | accessDenied    -- 403 actor not a member
  | invalidUserId   -- 400 "Valid user_id is required"
  | notFriends      -- 403 "You can only add friends to group chats..."
  | memberAdded     -- 200
deriving Repr, DecidableEq

/-- `app/routes/chat.py add_room_member`. -/
def add_room_member (user_id room_id : String) (new_member_id : Option String)
    (st : ChatState) : AddMemberResult × ChatState :=
  if !validate_object_id room_id then (.invalidRoomId, st)
  else
    match st.rooms.find? (fun r => r.id == room_id) with
    | none => (.roomNotFound, st)
    | some room =>
      if room.room_type != "group" then (.notGroupRoom, st)
      else if !is_member room_id user_id st.rooms then (.accessDenied, st)
      else
        match new_member_id with
        | none => (.invalidUserId, st)
        | some mid =>
          if mid == "" || !validate_object_id mid then (.invalidUserId, st)
          else if !are_friends user_id mid st.friendships then (.notFriends, st)
          else (.memberAdded, { st with rooms := add_member_row room_id mid st.rooms })

/-- Outcome of `POST /api/chat/rooms/<id>/leave`. -/
inductive LeaveRoomResult where
  | invalidRoomId | roomNotFound | leftRoom
deriving Repr, DecidableEq

/-- `app/routes/chat.py leave_room`: no room-kind check — any member set,
private rooms included, can shrink. -/
def leave_room (user_id room_id : String) (st : ChatState) :
    LeaveRoomResult × ChatState :=
  if !validate_object_id room_id then (.invalidRoomId, st)
  else
    match st.rooms.find? (fun r => r.id == room_id) with
    | none => (.roomNotFound, st)
    | some _ => (.leftRoom, { st with rooms := remove_member_row room_id user_id st.rooms })

/-- The private-room invariant of the spec (claim C7): every private room
has exactly 2 distinct members, and no two private rooms (identified by
id) have the same member set. -/
def privateRoomInv (rooms : List Room) : Prop :=
  (∀ r ∈ rooms, r.room_type = "private" → r.members.Nodup ∧ r.members.length = 2) ∧
  ∀ r ∈ rooms, ∀ s ∈ rooms, r.room_type = "private" → s.room_type = "private" →
    r.members ⊆ s.members → s.members ⊆ r.members → r.id = s.id

/-- Outcome of `POST /api/chat/rooms/<id>/read` (REST `mark_as_read`). -/
inductive RestMarkReadResult where
  | invalidRoomId   -- 400
  | accessDenied    -- 403
  | marked          -- 200
deriving Repr, DecidableEq

/-- `app/routes/chat.py mark_as_read`: validates the room id, rejects
non-members with 403 before any state change, then marks the whole room
read. -/
def rest_mark_as_read (user_id room_id : String) (st : ChatState) :
    RestMarkReadResult × ChatState :=
  if !validate_object_id room_id then (.invalidRoomId, st)
  else if !is_member room_id user_id st.rooms then (.accessDenied, st)
  else (.marked,
    { st with messages := mark_room_messages_as_read room_id user_id st.messages })

/-- Outcome of the socket `mark_read` event handler. -/
inductive SocketMarkReadOutcome where
  | ignored      -- missing/empty room_id or user_id: silent early return
  | raised       -- ObjectId conversion raised on a malformed id
  | marked       -- messages marked read and messages_read broadcast to the room
deriving Repr, DecidableEq

/-- `app/socketio_events.py handle_mark_read`: returns silently when a
field is missing or empty (Python falsiness), otherwise converts both ids
(raising on malformed ones) and immediately marks the room read and
broadcasts `messages_read` — with no membership check of any kind. -/
def handle_mark_read (room_id user_id : Option String) (st : ChatState) :
    SocketMarkReadOutcome × ChatState :=
  match room_id, user_id with
  | some rid, some uid =>
    if rid == "" || uid == "" then (.ignored, st)
    else if !validate_object_id rid || !validate_object_id uid then (.raised, st)
    else (.marked,
      { st with messages := mark_room_messages_as_read rid uid st.messages })
  | _, _ => (.ignored, st)

/-! ## Presence & connection registry (app/socketio_events.py) -/

/-- Process-wide presence state: the `connected_users` dict (insertion
ordered, user id ↦ the stored `True`), the persisted user statuses, and
the broadcast `user_status` events (user id, status). -/
structure PresenceState where
  connected_users : List (String × Bool)
  statuses : List (String × String)
  events : List (String × String)
deriving Repr, DecidableEq

/-- Python dict assignment `d[k] = v`: overwrite in place or append. -/
def dict_set {β : Type} (key : String) (val : β) :
    List (String × β) → List (String × β)
  | [] => [(key, val)]
  | (k, v) :: rest =>
    if k == key then (k, val) :: rest else (k, v) :: dict_set key val rest

/-- Python `d.pop(k, None)`: drop the entry with the key, if present. -/
def dict_pop (key : String) : List (String × Bool) → List (String × Bool)
  | [] => []
  | (k, v) :: rest => if k == key then rest else (k, v) :: dict_pop key rest

/-- `UserRepository.update_status`: `update_one` on `_id` (no upsert). -/
def user_update_status (user_id status : String) :
    List (String × String) → List (String × String) :=
  update_first (fun u => u.1 == user_id) (fun u => (u.1, status))

/-- `handle_connect` after a successful token decode for `user_id`:
`connected_users[user_id] = True`, persist status online, broadcast
`user_status` online.  (Joining the personal transport room is not
presence state.) -/
def handle_connect (user_id : String) (st : PresenceState) : PresenceState :=
  { connected_users := dict_set user_id true st.connected_users,
    statuses := user_update_status user_id "online" st.statuses,
    events := st.events ++ [(user_id, "online")] }

/-- The disconnect handler's scan: first key of `connected_users` whose
value is truthy. -/
def first_truthy : List (String × Bool) → Option String
  | [] => none
  | (u, b) :: rest => if b then some u else first_truthy rest

/-- `handle_disconnect`: the handler receives no indication of which
connection dropped; it scans `connected_users` for the first truthy
entry, pops that entry, persists status offline for that user and
broadcasts `user_status` offline, then breaks. -/
def handle_disconnect (st : PresenceState) : PresenceState :=
  match first_truthy st.connected_users with
  | none => st
  | some u =>
    { connected_users := dict_pop u st.connected_users,
      statuses := user_update_status u "offline" st.statuses,
      events := st.events ++ [(u, "offline")] }

/-! ### Canonical-pair lemmas -/

theorem charListLt_asymm (x : List Char) :
    ∀ y, charListLt x y = true → charListLt y x = false := by
  induction x with
  | nil =>
    intro y h
    cases y with
    | nil => exact Bool.noConfusion h
    | cons b bs => rfl
  | cons a as ih =>
    intro y h
    cases y with
    | nil => exact Bool.noConfusion h
    | cons b bs =>
      unfold charListLt at h ⊢
      by_cases hab : a.toNat < b.toNat
      · rw [if_neg (Nat.lt_asymm hab), if_pos hab]
      · rw [if_neg hab] at h
        by_cases hba : b.toNat < a.toNat
        · rw [if_pos hba] at h
          exact Bool.noConfusion h
        · rw [if_neg hba] at h
          rw [if_neg hba, if_neg hab]
          exact ih bs h

theorem charListLt_antisymm (x : List Char) :
    ∀ y, charListLt x y = false → charListLt y x = false → x = y := by
  induction x with
  | nil =>
    intro y h _
    cases y with
    | nil => rfl
    | cons b bs => exact Bool.noConfusion h
  | cons a as ih =>
    intro y h h'
    cases y with
    | nil => exact Bool.noConfusion h'
    | cons b bs =>
      unfold charListLt at h h'
      by_cases hab : a.toNat < b.toNat
      · rw [if_pos hab] at h
        exact Bool.noConfusion h
      · by_cases hba : b.toNat < a.toNat
        · rw [if_pos hba] at h'
          exact Bool.noConfusion h'
        · rw [if_neg hab, if_neg hba] at h
          rw [if_neg hba, if_neg hab] at h'
          have hc : a = b := Char.ext (UInt32.toNat.inj
            (Nat.le_antisymm (Nat.le_of_not_lt hba) (Nat.le_of_not_lt hab)))
          rw [hc, ih bs h h']

theorem strLt_asymm (A B : String) (h : strLt A B = true) : strLt B A = false :=
  charListLt_asymm A.data B.data h

theorem strLt_antisymm (A B : String) (h1 : strLt A B = false)
    (h2 : strLt B A = false) : A = B := by
  cases A with
  | mk la =>
    cases B with
    | mk lb => exact congrArg String.mk (charListLt_antisymm la lb h1 h2)

theorem mkFriendship_comm (A B : String) : mkFriendship A B = mkFriendship B A := by
  unfold mkFriendship
  cases hab : strLt A B with
  | true =>
    rw [strLt_asymm A B hab]
    simp
  | false =>
    cases hba : strLt B A with
    | true => simp
    | false =>
      have hc := strLt_antisymm A B hab hba
      subst hc
      simp

theorem find_friendship_comm (A B : String) (db : List FriendshipRow) :
    find_friendship A B db = find_friendship B A db := by
  unfold find_friendship
  cases hab : strLt A B with
  | true =>
    rw [strLt_asymm A B hab]
    simp
  | false =>
    cases hba : strLt B A with
    | true => simp
    | false =>
      have hc := strLt_antisymm A B hab hba
      subst hc
      simp

theorem are_friends_comm (A B : String) (db : List FriendshipRow) :
    are_friends A B db = are_friends B A db := by
  unfold are_friends
  rw [find_friendship_comm]

/-- The canonical row for a pair satisfies the canonical lookup's predicate. -/
theorem find_friendship_matches_mk (A B : String) :
    ((mkFriendship A B).user1_id ==
        (if strLt A B then (A, B) else (B, A)).1 &&
      (mkFriendship A B).user2_id ==
        (if strLt A B then (A, B) else (B, A)).2) = true := by
  unfold mkFriendship
  cases h : strLt A B <;> simp [h]

theorem find?_append_last {α : Type} (p : α → Bool) (l : List α) (x : α)
    (h : ∀ y ∈ l, p y = false) (hx : p x = true) :
    (l ++ [x]).find? p = some x := by
  induction l with
  | nil => simp [List.find?, hx]
  | cons a as ih =>
    have ha : p a = false := h a (by simp)
    simp only [List.cons_append, List.find?, ha]
    exact ih (fun y hy => h y (by simp [hy]))

theorem find?_append_isSome {α : Type} (p : α → Bool) (l : List α) (x : α)
    (hx : p x = true) : ((l ++ [x]).find? p).isSome = true := by
  induction l with
  | nil => simp [List.find?, hx]
  | cons a as ih =>
    simp only [List.cons_append, List.find?]
    cases h : p a
    · simpa using ih
    · simp

theorem are_friends_append_mk (A B : String) (db : List FriendshipRow) :
    are_friends A B (db ++ [mkFriendship A B]) = true := by
  unfold are_friends find_friendship
  exact find?_append_isSome _ db _ (find_friendship_matches_mk A B)

/-! ### Claim C2 -/

/-- C2: for distinct users A and B, after `sendRequest(A,B)` succeeds and
B accepts the created request, `are_friends(A,B)` and `are_friends(B,A)`
both hold: create and lookup canonicalise the pair by the same
smaller-string-first order, so the unordered pair resolves to one stored
row regardless of argument order. -/
theorem c2_sendRequest_accept_friends_symmetric
    (A B : String) (st : FriendState)
    (hvalid : validate_object_id B = true)
    (hne : A ≠ B)
    (huser : st.users.contains B = true)
    (hnotfriends : are_friends A B st.friendships = false)
    (hnoreq : find_existing_request A B st.requests = none)
    (hfresh : ∀ r ∈ st.requests, r.id ≠ st.nextRequestId) :
    (send_friend_request A B st).1 = .requestCreated st.nextRequestId ∧
    (accept_friend_request st.nextRequestId B (send_friend_request A B st).2).1
      = .accepted ∧
    are_friends A B
      ((accept_friend_request st.nextRequestId B
        (send_friend_request A B st).2).2).friendships = true ∧
    are_friends B A
      ((accept_friend_request st.nextRequestId B
        (send_friend_request A B st).2).2).friendships = true := by
  have h1 : (A == B) = false := by
    simpa using hne
  have hmem : B ∈ st.users := by
    simpa using huser
  have hsend : send_friend_request A B st =
      (.requestCreated st.nextRequestId,
       { st with requests := st.requests ++ [⟨st.nextRequestId, A, B, "pending"⟩],
                 nextRequestId := st.nextRequestId + 1 }) := by
    simp [send_friend_request, hvalid, h1, hmem, hnotfriends, hnoreq]
  have hfind : (st.requests ++ [(⟨st.nextRequestId, A, B, "pending"⟩ : FriendReq)]).find?
      (fun r => r.id == st.nextRequestId) = some ⟨st.nextRequestId, A, B, "pending"⟩ := by
    apply find?_append_last
    · intro y hy
      simpa using hfresh y hy
    · simp
  have hacc : accept_friend_request st.nextRequestId B (send_friend_request A B st).2 =
      (.accepted,
       { st with
         requests := update_request_status st.nextRequestId "accepted"
           (st.requests ++ [⟨st.nextRequestId, A, B, "pending"⟩]),
         friendships := st.friendships ++ [mkFriendship A B],
         nextRequestId := st.nextRequestId + 1 }) := by
    rw [hsend]
    simp [accept_friend_request, hfind]
  rw [hacc, hsend]
  refine ⟨rfl, rfl, are_friends_append_mk A B st.friendships, ?_⟩
  rw [are_friends_comm]
  exact are_friends_append_mk A B st.friendships

/-- Witness for C2 at a concrete pair of users. -/
theorem c2_witness :
    are_friends "b" "aaaaaaaaaaaaaaaaaaaaaaaa"
      ((accept_friend_request 0 "aaaaaaaaaaaaaaaaaaaaaaaa"
        (send_friend_request "b" "aaaaaaaaaaaaaaaaaaaaaaaa"
          ⟨["aaaaaaaaaaaaaaaaaaaaaaaa"], [], [], 0⟩).2).2).friendships = true ∧
    are_friends "aaaaaaaaaaaaaaaaaaaaaaaa" "b"
      ((accept_friend_request 0 "aaaaaaaaaaaaaaaaaaaaaaaa"
        (send_friend_request "b" "aaaaaaaaaaaaaaaaaaaaaaaa"
          ⟨["aaaaaaaaaaaaaaaaaaaaaaaa"], [], [], 0⟩).2).2).friendships = true := by
  have h := c2_sendRequest_accept_friends_symmetric "b" "aaaaaaaaaaaaaaaaaaaaaaaa"
    ⟨["aaaaaaaaaaaaaaaaaaaaaaaa"], [], [], 0⟩
    (by decide) (by decide) (by decide) (by decide) (by decide) (by simp)
  exact ⟨h.2.2.1, h.2.2.2⟩

/-! ### Claim C6 -/

/-- C6: `send_friend_request` fails with the self-request error when
from == to, with the already-friends conflict when a Friendship row for
the unordered pair exists, and with a duplicate-request conflict when a
pending request exists between the pair in either direction; in each
failure case the state is unchanged (no request is created). -/
theorem c6_send_request_failure_cases
    (A B : String) (st : FriendState)
    (hvalid : validate_object_id B = true)
    (huser : st.users.contains B = true) :
    (A = B → send_friend_request A B st = (.selfRequest, st)) ∧
    (A ≠ B → are_friends A B st.friendships = true →
      send_friend_request A B st = (.alreadyFriends, st)) ∧
    (A ≠ B → are_friends A B st.friendships = false →
      ∀ r, find_existing_request A B st.requests = some r →
        ((send_friend_request A B st).1 = .requestAlreadySent ∨
         (send_friend_request A B st).1 = .requestAlreadyReceived) ∧
        (send_friend_request A B st).2 = st) := by
  refine ⟨?_, ?_, ?_⟩
  · intro h
    subst h
    simp [send_friend_request, hvalid]
  · intro hne hf
    have h1 : (A == B) = false := by simpa using hne
    have hmem : B ∈ st.users := by simpa using huser
    simp [send_friend_request, hvalid, h1, hmem, hf]
  · intro hne hf r hr
    have h1 : (A == B) = false := by simpa using hne
    have hmem : B ∈ st.users := by simpa using huser
    cases hfrom : (r.from_user_id == A) with
    | true => simp [send_friend_request, hvalid, h1, hmem, hf, hr, hfrom]
    | false => simp [send_friend_request, hvalid, h1, hmem, hf, hr, hfrom]

/-- Witness for C6 at a concrete pair of users. -/
theorem c6_witness :
    (("b" : String) = "aaaaaaaaaaaaaaaaaaaaaaaa" →
      send_friend_request "b" "aaaaaaaaaaaaaaaaaaaaaaaa"
        ⟨["aaaaaaaaaaaaaaaaaaaaaaaa"], [], [], 0⟩ =
        (.selfRequest, ⟨["aaaaaaaaaaaaaaaaaaaaaaaa"], [], [], 0⟩)) ∧
    (("b" : String) ≠ "aaaaaaaaaaaaaaaaaaaaaaaa" →
      are_friends "b" "aaaaaaaaaaaaaaaaaaaaaaaa"
        (FriendState.mk ["aaaaaaaaaaaaaaaaaaaaaaaa"] [] [] 0).friendships = true →
      send_friend_request "b" "aaaaaaaaaaaaaaaaaaaaaaaa"
        ⟨["aaaaaaaaaaaaaaaaaaaaaaaa"], [], [], 0⟩ =
        (.alreadyFriends, ⟨["aaaaaaaaaaaaaaaaaaaaaaaa"], [], [], 0⟩)) ∧
    (("b" : String) ≠ "aaaaaaaaaaaaaaaaaaaaaaaa" →
      are_friends "b" "aaaaaaaaaaaaaaaaaaaaaaaa"
        (FriendState.mk ["aaaaaaaaaaaaaaaaaaaaaaaa"] [] [] 0).friendships = false →
      ∀ r, find_existing_request "b" "aaaaaaaaaaaaaaaaaaaaaaaa"
          (FriendState.mk ["aaaaaaaaaaaaaaaaaaaaaaaa"] [] [] 0).requests = some r →
        ((send_friend_request "b" "aaaaaaaaaaaaaaaaaaaaaaaa"
            ⟨["aaaaaaaaaaaaaaaaaaaaaaaa"], [], [], 0⟩).1 = .requestAlreadySent ∨
         (send_friend_request "b" "aaaaaaaaaaaaaaaaaaaaaaaa"
            ⟨["aaaaaaaaaaaaaaaaaaaaaaaa"], [], [], 0⟩).1 = .requestAlreadyReceived) ∧
        (send_friend_request "b" "aaaaaaaaaaaaaaaaaaaaaaaa"
            ⟨["aaaaaaaaaaaaaaaaaaaaaaaa"], [], [], 0⟩).2 =
          ⟨["aaaaaaaaaaaaaaaaaaaaaaaa"], [], [], 0⟩) :=
  c6_send_request_failure_cases "b" "aaaaaaaaaaaaaaaaaaaaaaaa"
    ⟨["aaaaaaaaaaaaaaaaaaaaaaaa"], [], [], 0⟩ (by decide) (by decide)

/-! ### Claim C1 -/

/-- C1 (code divergence): `connected_users` maps a user id to `True`, so a
second connection by the same user collapses into the same entry, and
`handle_disconnect` pops the first truthy entry regardless of which
transport connection dropped.  Scenario 1: user "a" connects twice (two
live connections) and one of them disconnects — the handler removes "a"'s
only registry entry and persists/broadcasts status offline even though
the other connection is still live.  Scenario 2: "a" connects, then "b"
connects, then one connection (whichever it is) disconnects — the handler
always pops "a", the first entry, not the disconnecting user's. -/
theorem c1_disconnect_pops_arbitrary_entry :
    (handle_disconnect (handle_connect "a" (handle_connect "a"
        ⟨[], [("a", "offline")], []⟩))).statuses = [("a", "offline")] ∧
    (handle_disconnect (handle_connect "a" (handle_connect "a"
        ⟨[], [("a", "offline")], []⟩))).connected_users = [] ∧
    (handle_disconnect (handle_connect "a" (handle_connect "a"
        ⟨[], [("a", "offline")], []⟩))).events =
      [("a", "online"), ("a", "online"), ("a", "offline")] ∧
    (handle_disconnect (handle_connect "b" (handle_connect "a"
        ⟨[], [("a", "offline"), ("b", "offline")], []⟩))).statuses =
      [("a", "offline"), ("b", "online")] := by
  exact ⟨rfl, rfl, rfl, rfl⟩

/-! ### Claim C5 -/

/-- After `mark_step`, a message never again matches the unread filter's
room-and-not-read part. -/
theorem mark_step_covers (room_id user_id : String) (m : Msg) :
    ((mark_step room_id user_id m).room_id == room_id &&
      !((mark_step room_id user_id m).read_by.contains user_id)) = false := by
  unfold mark_step addToSet
  by_cases h1 : (m.room_id == room_id) = true
  · by_cases h2 : user_id ∈ m.read_by
    · simp [h1, h2]
    · simp [h1, h2]
  · simp [h1]

/-- Mapping a function that makes the predicate false filters to nothing. -/
theorem filter_map_eq_nil {α β : Type} (f : α → β) (p : β → Bool) (l : List α)
    (h : ∀ a, p (f a) = false) : (l.map f).filter p = [] := by
  induction l with
  | nil => rfl
  | cons a as ih =>
    rw [List.map_cons, List.filter_cons, if_neg, ih]
    intro hc
    rw [h a] at hc
    exact Bool.noConfusion hc

/-- C5: `get_unread_count` counts exactly the messages of the room that
are not authored by the user and whose `read_by` excludes the user (the
spec-side counter), and immediately after `mark_room_messages_as_read`
the unread count for that user in that room is 0. -/
theorem c5_unread_count_semantics (room_id user_id : String) (db : List Msg) :
    get_unread_count room_id user_id db = unreadCount_spec room_id user_id db ∧
    get_unread_count room_id user_id
      (mark_room_messages_as_read room_id user_id db) = 0 := by
  constructor
  · unfold get_unread_count unreadCount_spec
    congr 1
    apply List.filter_congr
    intro m _
    cases h1 : (m.room_id == room_id) <;>
      cases h2 : (m.read_by.contains user_id) <;>
        cases h3 : (m.sender_id == user_id) <;> simp [h1, h2, h3]
  · unfold get_unread_count mark_room_messages_as_read
    rw [filter_map_eq_nil]
    · rfl
    · intro m
      show (((mark_step room_id user_id m).room_id == room_id &&
          !((mark_step room_id user_id m).read_by.contains user_id)) &&
          !((mark_step room_id user_id m).sender_id == user_id)) = false
      rw [mark_step_covers]
      rfl

/-! ### Claim C8 -/

theorem addToSet_id (user_id : String) (m : Msg) :
    (addToSet user_id m).id = m.id := by
  unfold addToSet
  split <;> rfl

theorem subset_addToSet (user_id : String) (m : Msg) :
    m.read_by ⊆ (addToSet user_id m).read_by := by
  unfold addToSet
  split
  · exact fun a ha => ha
  · exact List.subset_append_left _ _

/-- `mark_step` preserves the id and only grows `read_by`. -/
theorem mark_step_rel (room_id user_id : String) (m : Msg) :
    m.id = (mark_step room_id user_id m).id ∧
      m.read_by ⊆ (mark_step room_id user_id m).read_by := by
  unfold mark_step
  split
  · exact ⟨(addToSet_id user_id m).symm, subset_addToSet user_id m⟩
  · exact ⟨rfl, fun a ha => ha⟩

/-- An `update_one` whose update fixes every matching row is a no-op. -/
theorem update_first_no_change {α : Type} (p : α → Bool) (f : α → α) (l : List α)
    (h : ∀ x ∈ l, p x = true → f x = x) : update_first p f l = l := by
  induction l with
  | nil => rfl
  | cons a as ih =>
    unfold update_first
    by_cases hp : p a = true
    · rw [if_pos hp, h a (by simp) hp]
    · rw [if_neg hp, ih (fun x hx hpx => h x (by simp [hx]) hpx)]

/-- C8: under both read-marking operations every message keeps its id and
its `read_by` set only grows (monotone set union), `mark_as_read` on an
already-read message is a no-op rather than an error, and
`mark_room_messages_as_read` leaves untouched every message whose
`read_by` already contains the user. -/
theorem c8_read_by_monotone (message_id user_id room_id : String) (db : List Msg) :
    List.Forall₂ (fun m m' => m.id = m'.id ∧ m.read_by ⊆ m'.read_by)
      db (mark_as_read message_id user_id db) ∧
    List.Forall₂ (fun m m' => m.id = m'.id ∧ m.read_by ⊆ m'.read_by)
      db (mark_room_messages_as_read room_id user_id db) ∧
    ((∀ m ∈ db, m.id = message_id → m.read_by.contains user_id = true) →
      mark_as_read message_id user_id db = db) ∧
    (∀ m : Msg, m.read_by.contains user_id = true →
      mark_step room_id user_id m = m) := by
  have hrefl : ∀ (l : List Msg),
      List.Forall₂ (fun m m' => m.id = m'.id ∧ m.read_by ⊆ m'.read_by) l l :=
    fun l => List.forall₂_same.mpr (fun x _ => ⟨rfl, fun a ha => ha⟩)
  refine ⟨?_, ?_, ?_, ?_⟩
  · unfold mark_as_read
    induction db with
    | nil => exact List.Forall₂.nil
    | cons m ms ih =>
      unfold update_first
      by_cases h : (m.id == message_id) = true
      · rw [if_pos h]
        exact List.Forall₂.cons
          ⟨(addToSet_id user_id m).symm, subset_addToSet user_id m⟩ (hrefl ms)
      · rw [if_neg h]
        exact List.Forall₂.cons ⟨rfl, fun a ha => ha⟩ ih
  · unfold mark_room_messages_as_read
    induction db with
    | nil => exact List.Forall₂.nil
    | cons m ms ih =>
      rw [List.map_cons]
      exact List.Forall₂.cons (mark_step_rel room_id user_id m) ih
  · intro hall
    apply update_first_no_change
    intro x hx hpx
    have hc := hall x hx (by simpa using hpx)
    unfold addToSet
    rw [if_pos hc]
  · intro m hc
    have hc' : user_id ∈ m.read_by := by simpa using hc
    unfold mark_step
    rw [if_neg (by simp [hc'])]

/-- Witness for C8: re-marking an already-read message leaves the log
unchanged. -/
theorem c8_witness :
    mark_as_read "m1" "u"
      [⟨"m1", "s", "r", "hi", "text", 0, ["u"]⟩] =
      [⟨"m1", "s", "r", "hi", "text", 0, ["u"]⟩] :=
  (c8_read_by_monotone "m1" "u" "r"
    [⟨"m1", "s", "r", "hi", "text", 0, ["u"]⟩]).2.2.1 (by decide)

/-! ### Claim C4 -/

/-- Inserting a message no newer than anything in the list lands at the
end. -/
theorem insertByCreatedDesc_all_ge (m : Msg) (l : List Msg)
    (h : ∀ y ∈ l, m.created_at ≤ y.created_at) :
    insertByCreatedDesc m l = l ++ [m] := by
  induction l with
  | nil => rfl
  | cons x xs ih =>
    unfold insertByCreatedDesc
    rw [if_pos (h x (by simp)), ih (fun y hy => h y (by simp [hy]))]
    rfl

/-- On a chronologically ordered (oldest-first) list the newest-first
sort is exactly reversal. -/
theorem sortByCreatedDesc_chronological (l : List Msg)
    (h : l.Pairwise (fun a b => a.created_at ≤ b.created_at)) :
    sortByCreatedDesc l = l.reverse := by
  induction l with
  | nil => rfl
  | cons x xs ih =>
    rw [List.pairwise_cons] at h
    show insertByCreatedDesc x (sortByCreatedDesc xs) = (x :: xs).reverse
    rw [ih h.2, insertByCreatedDesc_all_ge, List.reverse_cons]
    intro y hy
    exact h.1 y (List.mem_reverse.mp hy)

/-- C4 counterexample: the claim's window formula ("taking `limit`")
disagrees with the code at `limit = 0`, because pymongo's `limit(0)`
means no limit: on a room holding two messages, `page(limit=0, skip=0)`
returns both messages, while sorting newest-first, skipping 0, taking 0
and reversing yields the empty list. -/
theorem c4_counterexample :
    find_by_room "room1" 0 0 [pageMsg 0, pageMsg 1] ≠
      ((((sortByCreatedDesc ([pageMsg 0, pageMsg 1].filter
        (fun m => m.room_id == "room1"))).drop 0).take 0)).reverse := by
  decide

/-- C4 amended: when the room's messages sit in the log in chronological
order, `find_by_room` with a nonzero limit returns the window obtained by
skipping `skip` and taking `limit` from the newest end, re-sorted to
chronological order, while `limit = 0` (pymongo: no limit) returns the
entire remaining window after the skip, chronological; and on the
concrete 120-message room, `page(limit=50, skip=0)` is messages 70–119 in
chronological order, `page(limit=50, skip=50)` is messages 20–69, and the
two pages concatenate to messages 20–119 — no overlap and no gap. -/
theorem c4_pagination_amended (room_id : String) (limit skip : Nat) (db : List Msg)
    (hchron : (db.filter (fun m => m.room_id == room_id)).Pairwise
      (fun a b => a.created_at ≤ b.created_at)) :
    (limit ≠ 0 →
      find_by_room room_id limit skip db =
        ((((db.filter (fun m => m.room_id == room_id)).reverse.drop skip).take
          limit)).reverse) ∧
    find_by_room room_id 0 skip db =
      (((db.filter (fun m => m.room_id == room_id)).reverse.drop skip)).reverse ∧
    find_by_room "room1" 50 0 pageDb = ((List.range 120).drop 70).map pageMsg ∧
    find_by_room "room1" 50 50 pageDb =
      (((List.range 120).drop 20).take 50).map pageMsg ∧
    find_by_room "room1" 50 50 pageDb ++ find_by_room "room1" 50 0 pageDb =
      ((List.range 120).drop 20).map pageMsg := by
  refine ⟨?_, ?_, by decide, by decide, by decide⟩
  · intro hl
    have hl' : (limit == 0) = false := by simpa using hl
    unfold find_by_room
    rw [sortByCreatedDesc_chronological _ hchron, hl']
    rfl
  · unfold find_by_room
    rw [sortByCreatedDesc_chronological _ hchron]
    rfl

/-- Witness for C4 on the 120-message log. -/
theorem c4_witness :
    find_by_room "room1" 50 0 pageDb =
      ((((pageDb.filter (fun m => m.room_id == "room1")).reverse.drop 0).take
        50)).reverse :=
  (c4_pagination_amended "room1" 50 0 pageDb (by decide)).1 (by decide)

/-! ### Claim C9 -/

/-- C9: the socket `mark_read` handler performs no membership check — for
any well-formed ids it marks all of the room's messages read by the user
and broadcasts `messages_read` even when the user is not a member of the
room, while the REST mark-as-read endpoint rejects the same non-member
with access denied and no state change. -/
theorem c9_socket_mark_read_no_membership_check
    (room_id user_id : String) (st : ChatState)
    (hvr : validate_object_id room_id = true)
    (hvu : validate_object_id user_id = true)
    (hnm : is_member room_id user_id st.rooms = false) :
    handle_mark_read (some room_id) (some user_id) st =
      (.marked, { st with
        messages := mark_room_messages_as_read room_id user_id st.messages }) ∧
    rest_mark_as_read user_id room_id st = (.accessDenied, st) := by
  have hr : (room_id == "") = false := by
    cases h : room_id == ""
    · rfl
    · have heq : room_id = "" := by simpa using h
      rw [heq] at hvr
      exact absurd hvr (by decide)
  have hu : (user_id == "") = false := by
    cases h : user_id == ""
    · rfl
    · have heq : user_id = "" := by simpa using h
      rw [heq] at hvu
      exact absurd hvu (by decide)
  constructor
  · simp [handle_mark_read, hr, hu, hvr, hvu]
  · simp [rest_mark_as_read, hvr, hnm]

/-- Witness for C9: a non-member marks a whole room read over the socket
while the REST endpoint denies the same request. -/
theorem c9_witness :
    handle_mark_read (some "cccccccccccccccccccccccc")
      (some "bbbbbbbbbbbbbbbbbbbbbbbb")
      ⟨[⟨"cccccccccccccccccccccccc", none, "group", ["aaaaaaaaaaaaaaaaaaaaaaaa"],
         "aaaaaaaaaaaaaaaaaaaaaaaa"⟩],
       [⟨"m1", "aaaaaaaaaaaaaaaaaaaaaaaa", "cccccccccccccccccccccccc", "hi", "text",
         0, []⟩], [], 0⟩ =
      (.marked,
       ⟨[⟨"cccccccccccccccccccccccc", none, "group", ["aaaaaaaaaaaaaaaaaaaaaaaa"],
          "aaaaaaaaaaaaaaaaaaaaaaaa"⟩],
        [⟨"m1", "aaaaaaaaaaaaaaaaaaaaaaaa", "cccccccccccccccccccccccc", "hi", "text",
          0, ["bbbbbbbbbbbbbbbbbbbbbbbb"]⟩], [], 0⟩) ∧
    rest_mark_as_read "bbbbbbbbbbbbbbbbbbbbbbbb" "cccccccccccccccccccccccc"
      ⟨[⟨"cccccccccccccccccccccccc", none, "group", ["aaaaaaaaaaaaaaaaaaaaaaaa"],
         "aaaaaaaaaaaaaaaaaaaaaaaa"⟩],
       [⟨"m1", "aaaaaaaaaaaaaaaaaaaaaaaa", "cccccccccccccccccccccccc", "hi", "text",
         0, []⟩], [], 0⟩ =
      (.accessDenied,
       ⟨[⟨"cccccccccccccccccccccccc", none, "group", ["aaaaaaaaaaaaaaaaaaaaaaaa"],
          "aaaaaaaaaaaaaaaaaaaaaaaa"⟩],
        [⟨"m1", "aaaaaaaaaaaaaaaaaaaaaaaa", "cccccccccccccccccccccccc", "hi", "text",
          0, []⟩], [], 0⟩) := by
  have h := c9_socket_mark_read_no_membership_check
    "cccccccccccccccccccccccc" "bbbbbbbbbbbbbbbbbbbbbbbb"
    ⟨[⟨"cccccccccccccccccccccccc", none, "group", ["aaaaaaaaaaaaaaaaaaaaaaaa"],
       "aaaaaaaaaaaaaaaaaaaaaaaa"⟩],
     [⟨"m1", "aaaaaaaaaaaaaaaaaaaaaaaa", "cccccccccccccccccccccccc", "hi", "text",
       0, []⟩], [], 0⟩ (by decide) (by decide) (by decide)
  refine ⟨?_, h.2⟩
  rw [h.1]
  decide

/-! ### Claim C3 -/

theorem find?_congr {α : Type} (p q : α → Bool) (l : List α)
    (h : ∀ a, p a = q a) : l.find? p = l.find? q := by
  induction l with
  | nil => rfl
  | cons a as ih =>
    cases hq : q a with
    | true =>
      rw [List.find?_cons_of_pos _ (by rw [h a, hq]),
        List.find?_cons_of_pos _ hq]
    | false =>
      rw [List.find?_cons_of_neg _ (by rw [h a, hq]; exact Bool.noConfusion),
        List.find?_cons_of_neg _ (by rw [hq]; exact Bool.noConfusion)]
      exact ih

theorem find?_append_of_none {α : Type} (p : α → Bool) (l₁ l₂ : List α)
    (h : l₁.find? p = none) : (l₁ ++ l₂).find? p = l₂.find? p := by
  induction l₁ with
  | nil => rfl
  | cons a as ih =>
    cases hp : p a with
    | true => rw [List.find?_cons_of_pos _ hp] at h; exact Option.noConfusion h
    | false =>
      rw [List.find?_cons_of_neg _ (by rw [hp]; exact Bool.noConfusion)] at h
      rw [List.cons_append,
        List.find?_cons_of_neg _ (by rw [hp]; exact Bool.noConfusion)]
      exact ih h

/-- The `$all`-based private-room lookup is symmetric in the two users. -/
theorem find_private_room_comm (u v : String) (rooms : List Room) :
    find_private_room u v rooms = find_private_room v u rooms := by
  unfold find_private_room
  apply find?_congr
  intro r
  cases h1 : r.members.contains u <;> cases h2 : r.members.contains v <;>
    simp [h1, h2]

/-- C3: creating a private room for a pair of friends twice — in either
argument order the second time — returns the same room id both times: the
second call finds the existing private room through `find_private_room`
and returns it as a success with no state change, creating no duplicate
room. -/
theorem c3_private_room_create_idempotent
    (X Y : String) (name1 name2 : Option String) (st : ChatState)
    (hvX : validate_object_id X = true)
    (hvY : validate_object_id Y = true)
    (hfr : are_friends X Y st.friendships = true) :
    ∃ rid : String,
      ((create_room X "private" [Y] name1 st).1 = .created rid ∨
       (create_room X "private" [Y] name1 st).1 = .existingRoom rid) ∧
      create_room X "private" [Y] name2 (create_room X "private" [Y] name1 st).2 =
        (.existingRoom rid, (create_room X "private" [Y] name1 st).2) ∧
      create_room Y "private" [X] name2 (create_room X "private" [Y] name1 st).2 =
        (.existingRoom rid, (create_room X "private" [Y] name1 st).2) := by
  have hfr' : are_friends Y X st.friendships = true := by
    rw [are_friends_comm]
    exact hfr
  have hcoll : collect_members X st.friendships [Y] = .ok [Y] := by
    simp [collect_members, hvY, hfr]
  have hcoll' : collect_members Y st.friendships [X] = .ok [X] := by
    simp [collect_members, hvX, hfr']
  cases hfind : find_private_room X Y st.rooms with
  | some room =>
    have h1 : create_room X "private" [Y] name1 st = (.existingRoom room.id, st) := by
      simp [create_room, hcoll, hfind]
    have hfind' : find_private_room Y X st.rooms = some room := by
      rw [find_private_room_comm]
      exact hfind
    refine ⟨room.id, ?_, ?_, ?_⟩
    · rw [h1]
      right
      rfl
    · rw [h1]
      simp [create_room, hcoll, hfind]
    · rw [h1]
      simp [create_room, hcoll', hfind']
  | none =>
    have h1 : create_room X "private" [Y] name1 st =
        (.created (natToHex24 st.nextRoomId),
         { st with
             rooms := st.rooms ++
               [⟨natToHex24 st.nextRoomId, name1, "private", [X, Y], X⟩],
             nextRoomId := st.nextRoomId + 1 }) := by
      simp [create_room, hcoll, hfind]
    have hfindn : st.rooms.find? (fun r => r.room_type == "private" &&
        (r.members.contains X && r.members.contains Y) &&
        r.members.length == 2) = none := by
      simpa [find_private_room] using hfind
    have hfind2 : find_private_room X Y
        (st.rooms ++ [⟨natToHex24 st.nextRoomId, name1, "private", [X, Y], X⟩]) =
        some ⟨natToHex24 st.nextRoomId, name1, "private", [X, Y], X⟩ := by
      unfold find_private_room
      rw [find?_append_of_none _ _ _ hfindn]
      simp
    have hfind2' : find_private_room Y X
        (st.rooms ++ [⟨natToHex24 st.nextRoomId, name1, "private", [X, Y], X⟩]) =
        some ⟨natToHex24 st.nextRoomId, name1, "private", [X, Y], X⟩ := by
      rw [find_private_room_comm]
      exact hfind2
    refine ⟨natToHex24 st.nextRoomId, ?_, ?_, ?_⟩
    · rw [h1]
      left
      rfl
    · rw [h1]
      simp [create_room, hcoll, hfind2]
    · rw [h1]
      simp [create_room, hcoll', hfind2']

/-- Witness for C3 at a concrete pair of friends. -/
theorem c3_witness :
    ∃ rid : String,
      ((create_room "aaaaaaaaaaaaaaaaaaaaaaaa" "private"
          ["bbbbbbbbbbbbbbbbbbbbbbbb"] none
          ⟨[], [], [mkFriendship "aaaaaaaaaaaaaaaaaaaaaaaa"
            "bbbbbbbbbbbbbbbbbbbbbbbb"], 0⟩).1 = .created rid ∨
       (create_room "aaaaaaaaaaaaaaaaaaaaaaaa" "private"
          ["bbbbbbbbbbbbbbbbbbbbbbbb"] none
          ⟨[], [], [mkFriendship "aaaaaaaaaaaaaaaaaaaaaaaa"
            "bbbbbbbbbbbbbbbbbbbbbbbb"], 0⟩).1 = .existingRoom rid) ∧
      create_room "aaaaaaaaaaaaaaaaaaaaaaaa" "private"
          ["bbbbbbbbbbbbbbbbbbbbbbbb"] none
          (create_room "aaaaaaaaaaaaaaaaaaaaaaaa" "private"
            ["bbbbbbbbbbbbbbbbbbbbbbbb"] none
            ⟨[], [], [mkFriendship "aaaaaaaaaaaaaaaaaaaaaaaa"
              "bbbbbbbbbbbbbbbbbbbbbbbb"], 0⟩).2 =
        (.existingRoom rid,
         (create_room "aaaaaaaaaaaaaaaaaaaaaaaa" "private"
            ["bbbbbbbbbbbbbbbbbbbbbbbb"] none
            ⟨[], [], [mkFriendship "aaaaaaaaaaaaaaaaaaaaaaaa"
              "bbbbbbbbbbbbbbbbbbbbbbbb"], 0⟩).2) ∧
      create_room "bbbbbbbbbbbbbbbbbbbbbbbb" "private"
          ["aaaaaaaaaaaaaaaaaaaaaaaa"] none
          (create_room "aaaaaaaaaaaaaaaaaaaaaaaa" "private"
            ["bbbbbbbbbbbbbbbbbbbbbbbb"] none
            ⟨[], [], [mkFriendship "aaaaaaaaaaaaaaaaaaaaaaaa"
              "bbbbbbbbbbbbbbbbbbbbbbbb"], 0⟩).2 =
        (.existingRoom rid,
         (create_room "aaaaaaaaaaaaaaaaaaaaaaaa" "private"
            ["bbbbbbbbbbbbbbbbbbbbbbbb"] none
            ⟨[], [], [mkFriendship "aaaaaaaaaaaaaaaaaaaaaaaa"
              "bbbbbbbbbbbbbbbbbbbbbbbb"], 0⟩).2) :=
  c3_private_room_create_idempotent "aaaaaaaaaaaaaaaaaaaaaaaa"
    "bbbbbbbbbbbbbbbbbbbbbbbb" none none
    ⟨[], [], [mkFriendship "aaaaaaaaaaaaaaaaaaaaaaaa"
      "bbbbbbbbbbbbbbbbbbbbbbbb"], 0⟩
    (by decide) (by decide) (by decide)

/-! ### Claim C7 -/

/-- An `update_one` whose (first-match) target row and its update both
fail the filter leaves the filtered view unchanged. -/
theorem filter_update_first_of_found {α : Type} (p q : α → Bool) (f : α → α)
    (l : List α) (x : α) (hfind : l.find? q = some x)
    (hx : p x = false) (hfx : p (f x) = false) :
    (update_first q f l).filter p = l.filter p := by
  induction l with
  | nil => exact Option.noConfusion hfind
  | cons a as ih =>
    cases hq : q a with
    | true =>
      rw [List.find?_cons_of_pos _ hq] at hfind
      have hax : a = x := Option.some.inj hfind
      subst hax
      unfold update_first
      rw [if_pos hq, List.filter_cons, List.filter_cons, if_neg, if_neg]
      · intro hc
        rw [hx] at hc
        exact Bool.noConfusion hc
      · intro hc
        rw [hfx] at hc
        exact Bool.noConfusion hc
    | false =>
      rw [List.find?_cons_of_neg _ (by rw [hq]; exact Bool.noConfusion)] at hfind
      unfold update_first
      rw [if_neg (by rw [hq]; exact Bool.noConfusion), List.filter_cons,
        List.filter_cons]
      cases hpa : p a with
      | true => rw [ih hfind]
      | false => rw [ih hfind]

/-- C7 does not hold as stated (see the counterexample); what the code
does guarantee of the cited operations is that `add_room_member` never
touches a private room: on every input it either rejects the request
(invalid id, unknown room, non-group room, non-member actor, invalid or
non-friend member) or adds a member to a group room, so the private
rooms of the state are exactly preserved. -/
theorem c7_amended_add_member_preserves_private_rooms
    (user_id room_id : String) (new_member_id : Option String) (st : ChatState) :
    ((add_room_member user_id room_id new_member_id st).2.rooms).filter
        (fun r => r.room_type == "private") =
      st.rooms.filter (fun r => r.room_type == "private") := by
  cases hval : validate_object_id room_id with
  | false => simp [add_room_member, hval]
  | true =>
    cases hfind : st.rooms.find? (fun r => r.id == room_id) with
    | none => simp [add_room_member, hval, hfind]
    | some room =>
      cases hty : room.room_type == "group" with
      | false =>
        have hg : ¬(room.room_type = "group") := by simpa using hty
        simp [add_room_member, hval, hfind, hty, hg]
      | true =>
        have hg : room.room_type = "group" := by simpa using hty
        have hpriv : (room.room_type == "private") = false := by
          rw [hg]
          rfl
        cases hmem : is_member room_id user_id st.rooms with
        | false => simp [add_room_member, hval, hfind, hty, hg, hmem]
        | true =>
          cases new_member_id with
          | none => simp [add_room_member, hval, hfind, hty, hg, hmem]
          | some mid =>
            by_cases hmid : (mid == "" || !validate_object_id mid) = true
            · simp [add_room_member, hval, hfind, hty, hg, hmem, hmid]
            · cases hfr : are_friends user_id mid st.friendships with
              | false => simp [add_room_member, hval, hfind, hty, hg, hmem, hmid, hfr]
              | true =>
                have hres : (add_room_member user_id room_id (some mid) st).2 =
                    { st with rooms := add_member_row room_id mid st.rooms } := by
                  simp [add_room_member, hval, hfind, hty, hg, hmem, hmid, hfr]
                rw [hres]
                unfold add_member_row
                apply filter_update_first_of_found _ _ _ _ room hfind hpriv
                cases hc : room.members.contains mid with
                | true => simpa [hc] using hpriv
                | false => simpa [hc] using hpriv

/-- C7 counterexample: with creator "aaa…a" friends with both "bbb…b" and
"ccc…c", `create_room(kind=private, members=[b,c])` takes the non-dedup
path (the computed member list has 3 entries) and creates a room of kind
`private` with 3 members, so the private-room invariant fails on the
resulting state. -/
theorem c7_counterexample :
    ¬ privateRoomInv (create_room "aaaaaaaaaaaaaaaaaaaaaaaa" "private"
      ["bbbbbbbbbbbbbbbbbbbbbbbb", "cccccccccccccccccccccccc"] none
      ⟨[], [],
       [⟨"aaaaaaaaaaaaaaaaaaaaaaaa", "bbbbbbbbbbbbbbbbbbbbbbbb"⟩,
        ⟨"aaaaaaaaaaaaaaaaaaaaaaaa", "cccccccccccccccccccccccc"⟩], 0⟩).2.rooms := by
  intro h
  have heq : (create_room "aaaaaaaaaaaaaaaaaaaaaaaa" "private"
      ["bbbbbbbbbbbbbbbbbbbbbbbb", "cccccccccccccccccccccccc"] none
      ⟨[], [],
       [⟨"aaaaaaaaaaaaaaaaaaaaaaaa", "bbbbbbbbbbbbbbbbbbbbbbbb"⟩,
        ⟨"aaaaaaaaaaaaaaaaaaaaaaaa", "cccccccccccccccccccccccc"⟩], 0⟩).2.rooms =
      [⟨"000000000000000000000000", none, "private",
        ["aaaaaaaaaaaaaaaaaaaaaaaa", "bbbbbbbbbbbbbbbbbbbbbbbb",
         "cccccccccccccccccccccccc"], "aaaaaaaaaaaaaaaaaaaaaaaa"⟩] := by decide
  rw [heq] at h
  have hlen := (h.1 ⟨"000000000000000000000000", none, "private",
      ["aaaaaaaaaaaaaaaaaaaaaaaa", "bbbbbbbbbbbbbbbbbbbbbbbb",
       "cccccccccccccccccccccccc"], "aaaaaaaaaaaaaaaaaaaaaaaa"⟩
    (by simp) rfl).2
  simp at hlen

/-! ### Claim C10 -/

/-- The member loop keeps exactly the valid ids when every valid id
passes the friendship check. -/
theorem collect_members_all_friends (X : String) (fs : List FriendshipRow)
    (mids : List String)
    (h : ∀ m ∈ mids, validate_object_id m = true → are_friends X m fs = true) :
    collect_members X fs mids = .ok (mids.filter validate_object_id) := by
  induction mids with
  | nil => rfl
  | cons m rest ih =>
    have ihr := ih (fun x hx hvx => h x (by simp [hx]) hvx)
    cases hv : validate_object_id m with
    | false => simp [collect_members, hv, List.filter_cons, ihr]
    | true =>
      have hf := h m (by simp) hv
      simp [collect_members, hv, hf, List.filter_cons, ihr]

/-- C10: room creation silently skips member ids that are not valid
object ids.  Whenever every valid requested id belongs to a friend of the
creator (and the private-pair dedup path does not apply), the room is
created with member list the creator followed by exactly the valid ids —
possibly strictly fewer members than requested, down to the creator
alone. -/
theorem c10_create_room_skips_invalid_ids
    (X room_type : String) (member_ids : List String) (name : Option String)
    (st : ChatState)
    (hne : member_ids ≠ [])
    (hfriends : ∀ m ∈ member_ids, validate_object_id m = true →
      are_friends X m st.friendships = true)
    (hnot2 : ¬(room_type = "private" ∧
      (member_ids.filter validate_object_id).length = 1)) :
    create_room X room_type member_ids name st =
      (.created (natToHex24 st.nextRoomId),
       { st with
           rooms := st.rooms ++
             [⟨natToHex24 st.nextRoomId, name, room_type,
               X :: member_ids.filter validate_object_id, X⟩],
           nextRoomId := st.nextRoomId + 1 }) := by
  have hcoll := collect_members_all_friends X st.friendships member_ids hfriends
  have hemp : member_ids.isEmpty = false := by
    cases hm : member_ids.isEmpty with
    | false => rfl
    | true => exact absurd (List.isEmpty_iff.mp hm) hne
  unfold create_room
  rw [hemp, hcoll]
  cases hfl : member_ids.filter validate_object_id with
  | nil => rfl
  | cons v vs =>
    cases vs with
    | nil =>
      have hpriv : (room_type == "private") = false := by
        cases hq : room_type == "private" with
        | false => rfl
        | true =>
          exact absurd ⟨by simpa using hq, by rw [hfl]; rfl⟩ hnot2
      simp [hpriv]
    | cons w ws => rfl

/-- Witness for C10: both requested ids are malformed, so the created
room contains only the creator (and is still of kind private). -/
theorem c10_witness :
    create_room "aaaaaaaaaaaaaaaaaaaaaaaa" "private" ["zz", ""] none
      ⟨[], [], [], 0⟩ =
      (.created "000000000000000000000000",
       ⟨[⟨"000000000000000000000000", none, "private",
          ["aaaaaaaaaaaaaaaaaaaaaaaa"], "aaaaaaaaaaaaaaaaaaaaaaaa"⟩], [], [], 1⟩) := by
  have h := c10_create_room_skips_invalid_ids "aaaaaaaaaaaaaaaaaaaaaaaa" "private"
    ["zz", ""] none ⟨[], [], [], 0⟩ (by decide) (by decide) (by decide)
  rw [h]
  decide

end ChatApp
